import Mathlib

/-!
Verification development for the structural-analysis tool
(src/structure_app.py).  The builder logic of the analysis section
(lines 140-245 of the source) is embedded as executable Lean functions
over exact rationals; the anastruct SystemElements object that the code
drives is modelled as explicit state (nodes, elements, loads, supports)
with the find-node-by-coordinate-or-create behaviour the code relies on.
-/

namespace StructureApp

/-- Load kind as stored in the session state: the source stores the
string "point" or "distributed". -/
inductive LoadType where
  | point
  | distributed
deriving DecidableEq, Repr

/-- One entry of the session loads list (source lines 116-121):
element_id is the 1-based user member id, value the magnitude in kips
(negative = downward), location the distance in feet from the start
node (only meaningful for point loads). -/
structure LoadInput where
  type : LoadType
  element_id : Nat
  value : ℚ
  location : ℚ
deriving DecidableEq, Repr

/-- One entry of the session elements list (source lines 61-67):
endpoint node ids and section properties E (ksi), I (in4), A (in2).
The Python dict key "end" is a Lean keyword, hence the field name end_. -/
structure MemberInput where
  start : Nat
  end_ : Nat
  E : ℚ
  I : ℚ
  A : ℚ
deriving DecidableEq, Repr

/-- One row of the editable node table: user node id and coordinates in
feet. -/
structure NodeRow where
  node_id : Nat
  x : ℚ
  y : ℚ
deriving DecidableEq, Repr

/-- Support kind as collected from the checkboxes (source lines 89-95). -/
inductive SupportKind where
  | fixed
  | pinned
  | roller
deriving DecidableEq, Repr

/-- Exact coordinate of a solver node.  An original node carries its
table coordinates; a split node is the point at distance d from the
start of the member with endpoint coordinates (x1,y1)-(x2,y2), namely
(x1 + (d/L)(x2-x1), y1 + (d/L)(y2-y1)) with L the member length
(source lines 193-196).  The source computes these coordinates in
floating point and the solver library identifies nodes by coordinate
lookup; two split points computed from identical parameters have
identical coordinates, which is exactly the identification this
constructor-level equality provides.  (A split point that happens to
coincide with an unrelated original node is distinguished here; no
claim depends on that measure-zero coincidence.) -/
inductive Coord where
  | pt (x y : ℚ)
  | split (x1 y1 x2 y2 d : ℚ)
deriving DecidableEq, Repr

/-- One solver element as recorded in the element map of the solver
library: sequential id, end node ids, end coordinates, stiffness
values. -/
structure AnaElement where
  id : Nat
  node_id1 : Nat
  node_id2 : Nat
  vertex1 : Coord
  vertex2 : Coord
  EI : ℚ
  EA : ℚ
deriving DecidableEq, Repr

/-- State of the solver object (ss = SystemElements() at source line
140) as far as the code observes it: the node registry (id paired with
coordinate), the element map, applied point loads (node id, Fy), applied
distributed loads (element id, q) and supports (node id, kind). -/
structure SystemState where
  nodes : List (Nat × Coord)
  elements : List AnaElement
  pointLoads : List (Nat × ℚ)
  qLoads : List (Nat × ℚ)
  supports : List (Nat × SupportKind)
deriving DecidableEq, Repr

def emptySystem : SystemState := ⟨[], [], [], [], []⟩

/-- ss.find_node_id(location=[x, y]) (source line 229): the id of the
node at the given coordinate, or none. -/
def find_node_id (ss : SystemState) (c : Coord) : Option Nat :=
  (ss.nodes.find? (fun p => decide (p.2 = c))).map (fun p => p.1)

/-- The find-a-node-at-this-coordinate-or-create-one behaviour of
ss.add_element: node ids are assigned sequentially from 1, matching the
source comment that the solver node ids are sequential (lines 212-214). -/
def findOrCreateNode (ss : SystemState) (c : Coord) : Nat × SystemState :=
  match find_node_id ss c with
  | some n => (n, ss)
  | none =>
      let n := ss.nodes.length + 1
      (n, { ss with nodes := ss.nodes ++ [(n, c)] })

/-- Result of ss.add_element: the assigned element id (the source
tracks it in lockstep with the variable current_ana_id), the two end
node ids, and the updated solver state. -/
structure AddedElement where
  id : Nat
  node1 : Nat
  node2 : Nat
  state : SystemState
deriving Repr

/-- ss.add_element(location=[[c1], [c2]], EI=.., EA=..): looks up or
creates the two end nodes and appends the element with the next
sequential id. -/
def add_element (ss : SystemState) (c1 c2 : Coord) (EI EA : ℚ) : AddedElement :=
  let r1 := findOrCreateNode ss c1
  let r2 := findOrCreateNode r1.2 c2
  let eid := r2.2.elements.length + 1
  ⟨eid, r1.1, r2.1,
    { r2.2 with elements := r2.2.elements ++ [⟨eid, r1.1, r2.1, c1, c2, EI, EA⟩] }⟩

/-- ss.point_load(node_id=nid, Fy=v) (source line 217). -/
def point_load (ss : SystemState) (nid : Nat) (Fy : ℚ) : SystemState :=
  { ss with pointLoads := ss.pointLoads ++ [(nid, Fy)] }

/-- ss.q_load(element_id=eid, q=v) (source line 242). -/
def q_load (ss : SystemState) (eid : Nat) (q : ℚ) : SystemState :=
  { ss with qLoads := ss.qLoads ++ [(eid, q)] }

/-- ss.add_support_fixed / add_support_hinged / add_support_roll
(source lines 232-234), all recorded with their kind. -/
def add_support (ss : SystemState) (nid : Nat) (k : SupportKind) : SystemState :=
  { ss with supports := ss.supports ++ [(nid, k)] }

/-- The node_map dict built at source line 141: user node id to
coordinates. -/
def node_map (rows : List NodeRow) (nid : Nat) : Option (ℚ × ℚ) :=
  (rows.find? (fun r => decide (r.node_id = nid))).map (fun r => (r.x, r.y))

/-- E_ksf = E * 144.0 (source line 162). -/
def E_ksf (E : ℚ) : ℚ := E * 144

/-- I_ft4 = I / 12.0 ** 4 (source line 163). -/
def I_ft4 (I : ℚ) : ℚ := I / 12 ^ 4

/-- A_ft2 = A / 144.0 (source line 164). -/
def A_ft2 (A : ℚ) : ℚ := A / 144

/-- EI_val = E_ksf * I_ft4 (source line 165). -/
def EI_val (E I : ℚ) : ℚ := E_ksf E * I_ft4 I

/-- EA_val = E_ksf * A_ft2 (source line 166). -/
def EA_val (E A : ℚ) : ℚ := E_ksf E * A_ft2 A

/-- Squared member length (x2-x1)^2 + (y2-y1)^2.  The source computes
L = sqrt of this (line 159); L itself is only ever used in the
comparisons d <= 0 or d >= L and in the ratio d / L, so the embedding
keeps the exact rational square. -/
def Lsq (x1 y1 x2 y2 : ℚ) : ℚ := (x2 - x1) ^ 2 + (y2 - y1) ^ 2

/-- The guard d <= 0 or d >= L of source line 186, expressed against
the squared length: for the nonnegative L = sqrt L2, d >= L holds for a
positive d exactly when d * d >= L2. -/
def invalidLocation (d L2 : ℚ) : Prop := d ≤ 0 ∨ L2 ≤ d * d

instance (d L2 : ℚ) : Decidable (invalidLocation d L2) :=
  inferInstanceAs (Decidable (d ≤ 0 ∨ L2 ≤ d * d))

/-- Accumulated state of the intelligent-builder loop: the solver
state, the member_map dict of source line 146 (user member id to the
list of solver element ids generated for it), and the user member ids
for which the invalid-location st.error message of source line 191 was
shown. -/
structure BuildState where
  ss : SystemState
  member_map : List (Nat × List Nat)
  warnings : List Nat
deriving DecidableEq, Repr

def initialBuild : BuildState := ⟨emptySystem, [], []⟩

/-- The predicate of the member_point_loads filter at source lines
169-170: loads of this member of point type. -/
def isPointLoadOf (user_id : Nat) (l : LoadInput) : Bool :=
  decide (l.element_id = user_id) && decide (l.type = LoadType.point)

/-- One iteration of the pre-processing loop over members (source
lines 150-217).  A member whose endpoint ids are missing from the node
table is skipped silently (the line 155 guard has no else branch).
Otherwise: with no point loads the member becomes one element; with
point loads only the FIRST one in session order is examined (line 182);
if its location fails the d <= 0 or d >= L check the member is added
unsplit, the load is not applied anywhere, and the st.error message is
recorded (lines 186-191); otherwise the member is split at the load
location, both segments are added in start-to-end order, and the point
load is applied at the shared node, obtained as node_id2 of the first
segment (lines 192-217). -/
def processMember (loads : List LoadInput) (rows : List NodeRow)
    (user_id : Nat) (el : MemberInput) (bs : BuildState) : BuildState :=
  match node_map rows el.start, node_map rows el.end_ with
  | some (x1, y1), some (x2, y2) =>
      let L2 := Lsq x1 y1 x2 y2
      let EI := EI_val el.E el.I
      let EA := EA_val el.E el.A
      let member_point_loads := loads.filter (isPointLoadOf user_id)
      match member_point_loads with
      | [] =>
          let r := add_element bs.ss (.pt x1 y1) (.pt x2 y2) EI EA
          { bs with
              ss := r.state
              member_map := bs.member_map ++ [(user_id, [r.id])] }
      | pload :: _ =>
          let d := pload.location
          if invalidLocation d L2 then
            let r := add_element bs.ss (.pt x1 y1) (.pt x2 y2) EI EA
            { ss := r.state
              member_map := bs.member_map ++ [(user_id, [r.id])]
              warnings := bs.warnings ++ [user_id] }
          else
            let mid : Coord := .split x1 y1 x2 y2 d
            let r1 := add_element bs.ss (.pt x1 y1) mid EI EA
            let r2 := add_element r1.state mid (.pt x2 y2) EI EA
            let split_node_id := r1.node2
            { ss := point_load r2.state split_node_id pload.value
              member_map := bs.member_map ++ [(user_id, [r1.id, r2.id])]
              warnings := bs.warnings }
  | _, _ => bs

/-- The support loop (source lines 220-234): for each checked support,
look up the coordinate of the user node, find the solver node there
and attach the support; when no solver node sits at that coordinate the
support is skipped silently (the line 231 guard has no else branch). -/
def addSupports (rows : List NodeRow) (support_data : List (Nat × SupportKind))
    (ss : SystemState) : SystemState :=
  support_data.foldl
    (fun ss p =>
      match node_map rows p.1 with
      | none => ss
      | some (tx, ty) =>
          match find_node_id ss (.pt tx ty) with
          | some found => add_support ss found p.2
          | none => ss)
    ss

/-- The distributed-load loop (source lines 237-242): every distributed
load is applied to all solver elements recorded for its member in
member_map, with member_map.get(id, []) returning the empty list for an
unknown member id. -/
def applyDistributedLoads (loads : List LoadInput) (mmap : List (Nat × List Nat))
    (ss : SystemState) : SystemState :=
  loads.foldl
    (fun ss l =>
      if l.type = LoadType.distributed then
        ((List.lookup l.element_id mmap).getD []).foldl
          (fun ss seg => q_load ss seg l.value) ss
      else ss)
    ss

/-- The complete structure definition held in the session state. -/
structure StructureInput where
  nodes : List NodeRow
  members : List MemberInput
  supports : List (Nat × SupportKind)
  loads : List LoadInput
deriving Repr

/-- The member pre-processing loop over the session elements list with
user_id = i + 1 (source line 151). -/
def buildMembers (inp : StructureInput) : BuildState :=
  inp.members.enum.foldl
    (fun bs p => processMember inp.loads inp.nodes (p.1 + 1) p.2 bs)
    initialBuild

/-- The full build: members, then supports, then distributed loads
(source lines 150-242). -/
def buildSystem (inp : StructureInput) : BuildState :=
  let bs := buildMembers inp
  let ss1 := addSupports inp.nodes inp.supports bs.ss
  let ss2 := applyDistributedLoads inp.loads bs.member_map ss1
  { bs with ss := ss2 }

/-- The error taxonomy of the design (spec section 7). -/
inductive AnalysisError where
  | invalidGeometry
  | invalidLoad
  | underconstrained
  | numericalInstability
deriving DecidableEq, Repr

/-- The record returned by a successful solve; its content beyond the
solved system is not inspected by any claim. -/
structure ResultRecord where
  system : SystemState
deriving Repr

/-- Modelled from the spec: ss.solve() is delegated entirely to the
external solver library, whose code is not part of this repository.
Per the spec, a structure with no supports at all fails with
UnderconstrainedError and never yields a result; a supported structure
is taken to solve successfully here (the claims only inspect the
failure side and the pre-solve state). -/
def solveModel (ss : SystemState) : Except AnalysisError ResultRecord :=
  if ss.supports.isEmpty then .error .underconstrained else .ok ⟨ss⟩

/-- The analysis section: build the system and solve inside the
try/except of source lines 244-308; on an exception only an error
message is shown and no result tables or diagrams are produced, which
the Except value captures. -/
def runAnalysis (inp : StructureInput) : Except AnalysisError ResultRecord :=
  solveModel (buildSystem inp).ss

/-- Whether an analysis produced a result record. -/
def exceptOk {ε α : Type} : Except ε α → Bool
  | .ok _ => true
  | .error _ => false

/-- The Add Member form check of source lines 59-69: a member is
appended exactly when its endpoint ids differ. -/
def acceptMember (start end_ : Nat) : Bool := decide (start ≠ end_)

/-- The form handler: append the member when accepted, otherwise leave
the list unchanged (and show the nodes-must-be-different error). -/
def addMemberForm (elements : List MemberInput) (el : MemberInput) : List MemberInput :=
  if acceptMember el.start el.end_ then elements ++ [el] else elements

/-! Concrete fixtures used by counterexamples and witnesses: a 10 ft
horizontal member between nodes 1 and 2 with W-shape-like section
values, simply supported. -/

def rows10 : List NodeRow := [⟨1, 0, 0⟩, ⟨2, 10, 0⟩]

def member12 : MemberInput := ⟨1, 2, 29000, 204, 7⟩

def supsPR : List (Nat × SupportKind) :=
  [(1, SupportKind.pinned), (2, SupportKind.roller)]

/-- Member with two interior point loads (at 3 ft and 7 ft). -/
def inpC1 : StructureInput :=
  ⟨rows10, [member12], supsPR,
   [⟨LoadType.point, 1, -1, 3⟩, ⟨LoadType.point, 1, -1, 7⟩]⟩

/-- Member with a point load 5 ft beyond its far end. -/
def inpC2 : StructureInput :=
  ⟨rows10, [member12], supsPR, [⟨LoadType.point, 1, -1, 15⟩]⟩

/-- Member with a point load exactly at its start node (d = 0). -/
def inpC3 : StructureInput :=
  ⟨rows10, [member12], supsPR, [⟨LoadType.point, 1, -1, 0⟩]⟩

/-- Member with a single interior point load at 4 ft. -/
def inpC4 : StructureInput :=
  ⟨rows10, [member12], supsPR, [⟨LoadType.point, 1, -1, 4⟩]⟩

/-- Member with two point loads at the same location (a tie at 5 ft),
of magnitudes -1 and -2. -/
def inpC5 : StructureInput :=
  ⟨rows10, [member12], supsPR,
   [⟨LoadType.point, 1, -1, 5⟩, ⟨LoadType.point, 1, -2, 5⟩]⟩

/-- Member with an interior point load and a distributed load. -/
def inpC6 : StructureInput :=
  ⟨rows10, [member12], supsPR,
   [⟨LoadType.point, 1, -1, 4⟩, ⟨LoadType.distributed, 1, -2, 0⟩]⟩

/-- Two distinct node ids with coincident coordinates, joined by a
member. -/
def inpC7 : StructureInput :=
  ⟨[⟨1, 0, 0⟩, ⟨2, 0, 0⟩], [member12], [], []⟩

/-- Dangling references: a member whose far end is the non-existent
node 99, a support on node 3 that no member touches, and a distributed
load on the non-existent member 5. -/
def inpC8 : StructureInput :=
  ⟨[⟨1, 0, 0⟩, ⟨2, 10, 0⟩, ⟨3, 50, 50⟩],
   [member12, ⟨1, 99, 29000, 204, 7⟩],
   [(1, SupportKind.pinned), (2, SupportKind.roller), (3, SupportKind.fixed)],
   [⟨LoadType.distributed, 5, -1, 0⟩]⟩

/-! Helper lemmas about the solver-state primitives.  The rational
operations of Batteries are irreducible by default, which only blocks
elaborator-side evaluation; making them semireducible within this file
lets concrete runs of the builder be settled by decide. -/

attribute [local semireducible] Rat.mul Rat.add Rat.sub Rat.inv

theorem find?_append_some {α : Type} {p : α → Bool} {l1 l2 : List α} {a : α}
    (h : l1.find? p = some a) : (l1 ++ l2).find? p = some a := by
  rw [List.find?_append, h]; rfl

theorem findOrCreateNode_found {ss : SystemState} {c : Coord} {n : Nat}
    (h : find_node_id ss c = some n) : findOrCreateNode ss c = (n, ss) := by
  simp [findOrCreateNode, h]

theorem find_node_id_create (ss : SystemState) (c : Coord) :
    find_node_id (findOrCreateNode ss c).2 c = some (findOrCreateNode ss c).1 := by
  unfold findOrCreateNode
  cases h : find_node_id ss c with
  | some n => simpa using h
  | none =>
      unfold find_node_id at h ⊢
      have h0 : ss.nodes.find? (fun p => decide (p.2 = c)) = none := by
        cases hf : ss.nodes.find? (fun p => decide (p.2 = c)) <;> simp [hf] at h ⊢
      simp [List.find?_append, h0, List.find?]

theorem find_node_id_mono {ss : SystemState} {c : Coord} {n : Nat}
    (h : find_node_id ss c = some n) (c' : Coord) :
    find_node_id (findOrCreateNode ss c').2 c = some n := by
  unfold findOrCreateNode
  cases h' : find_node_id ss c' with
  | some m => simpa using h
  | none =>
      unfold find_node_id at h ⊢
      rcases Option.map_eq_some'.mp h with ⟨a, ha, hb⟩
      rw [find?_append_some ha]
      simpa using hb

theorem findOrCreateNode_supports (ss : SystemState) (c : Coord) :
    ((findOrCreateNode ss c).2).supports = ss.supports := by
  unfold findOrCreateNode
  split <;> rfl

theorem add_element_supports (ss : SystemState) (c1 c2 : Coord) (EI EA : ℚ) :
    (add_element ss c1 c2 EI EA).state.supports = ss.supports := by
  simp [add_element, findOrCreateNode_supports]

theorem point_load_supports (ss : SystemState) (n : Nat) (v : ℚ) :
    (point_load ss n v).supports = ss.supports := rfl

theorem q_load_supports (ss : SystemState) (e : Nat) (v : ℚ) :
    (q_load ss e v).supports = ss.supports := rfl

theorem processMember_supports (loads : List LoadInput) (rows : List NodeRow)
    (uid : Nat) (el : MemberInput) (bs : BuildState) :
    (processMember loads rows uid el bs).ss.supports = bs.ss.supports := by
  unfold processMember
  split
  · dsimp only
    split
    · simp [add_element_supports]
    · split
      · simp [add_element_supports]
      · simp [point_load_supports, add_element_supports]
  · rfl

theorem foldl_processMember_supports (loads : List LoadInput) (rows : List NodeRow)
    (l : List (Nat × MemberInput)) (bs : BuildState) :
    ((l.foldl (fun bs p => processMember loads rows (p.1 + 1) p.2 bs) bs)).ss.supports
      = bs.ss.supports := by
  induction l generalizing bs with
  | nil => rfl
  | cons p t ih => rw [List.foldl_cons, ih, processMember_supports]

theorem buildMembers_supports (inp : StructureInput) :
    (buildMembers inp).ss.supports = [] := by
  unfold buildMembers
  rw [foldl_processMember_supports]
  rfl

theorem foldl_q_load_supports (v : ℚ) (segs : List Nat) (ss : SystemState) :
    (segs.foldl (fun ss seg => q_load ss seg v) ss).supports = ss.supports := by
  induction segs generalizing ss with
  | nil => rfl
  | cons s t ih => rw [List.foldl_cons, ih, q_load_supports]

theorem applyDistributedLoads_supports (loads : List LoadInput)
    (mmap : List (Nat × List Nat)) (ss : SystemState) :
    (applyDistributedLoads loads mmap ss).supports = ss.supports := by
  unfold applyDistributedLoads
  induction loads generalizing ss with
  | nil => rfl
  | cons l t ih =>
      rw [List.foldl_cons, ih]
      split
      · rw [foldl_q_load_supports]
      · rfl

theorem findOrCreateNode_elements (ss : SystemState) (c : Coord) :
    ((findOrCreateNode ss c).2).elements = ss.elements := by
  unfold findOrCreateNode
  split <;> rfl

theorem findOrCreateNode_pointLoads (ss : SystemState) (c : Coord) :
    ((findOrCreateNode ss c).2).pointLoads = ss.pointLoads := by
  unfold findOrCreateNode
  split <;> rfl

theorem add_element_state_elements (ss : SystemState) (c1 c2 : Coord) (EI EA : ℚ) :
    (add_element ss c1 c2 EI EA).state.elements
      = ss.elements ++ [⟨ss.elements.length + 1,
          (add_element ss c1 c2 EI EA).node1, (add_element ss c1 c2 EI EA).node2,
          c1, c2, EI, EA⟩] := by
  simp [add_element, findOrCreateNode_elements]

theorem add_element_id (ss : SystemState) (c1 c2 : Coord) (EI EA : ℚ) :
    (add_element ss c1 c2 EI EA).id = ss.elements.length + 1 := by
  simp [add_element, findOrCreateNode_elements]

theorem add_element_pointLoads (ss : SystemState) (c1 c2 : Coord) (EI EA : ℚ) :
    (add_element ss c1 c2 EI EA).state.pointLoads = ss.pointLoads := by
  simp [add_element, findOrCreateNode_pointLoads]

theorem point_load_elements (ss : SystemState) (n : Nat) (v : ℚ) :
    (point_load ss n v).elements = ss.elements := rfl

theorem point_load_pointLoads (ss : SystemState) (n : Nat) (v : ℚ) :
    (point_load ss n v).pointLoads = ss.pointLoads ++ [(n, v)] := rfl

theorem add_element_find_node2 (ss : SystemState) (c1 c2 : Coord) (a b : ℚ) :
    find_node_id (add_element ss c1 c2 a b).state c2
      = some (add_element ss c1 c2 a b).node2 := by
  unfold add_element
  dsimp only
  exact find_node_id_create (findOrCreateNode ss c1).2 c2

/-- The node shared between two consecutively added segments: when the
second element starts at the coordinate the first one ended at, the
node lookup of the solver returns the same node id, exactly the
identification the source relies on at lines 204 and 216. -/
theorem add_element_chain (ss : SystemState) (c1 c2 c3 : Coord) (a b a2 b2 : ℚ) :
    (add_element (add_element ss c1 c2 a b).state c2 c3 a2 b2).node1
      = (add_element ss c1 c2 a b).node2 := by
  have h := add_element_find_node2 ss c1 c2 a b
  have h2 : ∀ S : SystemState, (add_element S c2 c3 a2 b2).node1
      = (findOrCreateNode S c2).1 := fun S => rfl
  rw [h2, findOrCreateNode_found h]

/-! Branch lemmas for one iteration of the member loop. -/

/-- Source lines 172-176: a member with no point loads becomes a single
element. -/
theorem processMember_no_loads {loads : List LoadInput} {rows : List NodeRow}
    {uid : Nat} {el : MemberInput} (bs : BuildState) {x1 y1 x2 y2 : ℚ}
    (h1 : node_map rows el.start = some (x1, y1))
    (h2 : node_map rows el.end_ = some (x2, y2))
    (hl : loads.filter (isPointLoadOf uid) = []) :
    processMember loads rows uid el bs =
      { bs with
          ss := (add_element bs.ss (Coord.pt x1 y1) (Coord.pt x2 y2)
                  (EI_val el.E el.I) (EA_val el.E el.A)).state
          member_map := bs.member_map
            ++ [(uid, [(add_element bs.ss (Coord.pt x1 y1) (Coord.pt x2 y2)
                  (EI_val el.E el.I) (EA_val el.E el.A)).id])] } := by
  unfold processMember
  rw [h1, h2]
  dsimp only
  rw [hl]

/-- Source lines 185-191: when the first point load of the member fails
the location check, the member is added unsplit, no point load is
applied, and the error message is recorded. -/
theorem processMember_invalid {loads : List LoadInput} {rows : List NodeRow}
    {uid : Nat} {el : MemberInput} (bs : BuildState) {x1 y1 x2 y2 : ℚ}
    {l : LoadInput} {rest : List LoadInput}
    (h1 : node_map rows el.start = some (x1, y1))
    (h2 : node_map rows el.end_ = some (x2, y2))
    (hl : loads.filter (isPointLoadOf uid) = l :: rest)
    (hv : invalidLocation l.location (Lsq x1 y1 x2 y2)) :
    processMember loads rows uid el bs =
      { ss := (add_element bs.ss (Coord.pt x1 y1) (Coord.pt x2 y2)
                (EI_val el.E el.I) (EA_val el.E el.A)).state
        member_map := bs.member_map
          ++ [(uid, [(add_element bs.ss (Coord.pt x1 y1) (Coord.pt x2 y2)
                (EI_val el.E el.I) (EA_val el.E el.A)).id])]
        warnings := bs.warnings ++ [uid] } := by
  unfold processMember
  rw [h1, h2]
  dsimp only
  rw [hl]
  dsimp only
  rw [if_pos hv]

/-- Source lines 192-217: when the first point load of the member
passes the location check, the member is split at the load location,
both segments are added start-to-end, and the load is applied at
node_id2 of the first segment. -/
theorem processMember_split {loads : List LoadInput} {rows : List NodeRow}
    {uid : Nat} {el : MemberInput} (bs : BuildState) {x1 y1 x2 y2 : ℚ}
    {l : LoadInput} {rest : List LoadInput}
    (h1 : node_map rows el.start = some (x1, y1))
    (h2 : node_map rows el.end_ = some (x2, y2))
    (hl : loads.filter (isPointLoadOf uid) = l :: rest)
    (hv : ¬ invalidLocation l.location (Lsq x1 y1 x2 y2)) :
    processMember loads rows uid el bs =
      { ss := point_load
          (add_element
            (add_element bs.ss (Coord.pt x1 y1) (Coord.split x1 y1 x2 y2 l.location)
              (EI_val el.E el.I) (EA_val el.E el.A)).state
            (Coord.split x1 y1 x2 y2 l.location) (Coord.pt x2 y2)
            (EI_val el.E el.I) (EA_val el.E el.A)).state
          (add_element bs.ss (Coord.pt x1 y1) (Coord.split x1 y1 x2 y2 l.location)
            (EI_val el.E el.I) (EA_val el.E el.A)).node2
          l.value
        member_map := bs.member_map
          ++ [(uid,
            [(add_element bs.ss (Coord.pt x1 y1) (Coord.split x1 y1 x2 y2 l.location)
                (EI_val el.E el.I) (EA_val el.E el.A)).id,
             (add_element
                (add_element bs.ss (Coord.pt x1 y1) (Coord.split x1 y1 x2 y2 l.location)
                  (EI_val el.E el.I) (EA_val el.E el.A)).state
                (Coord.split x1 y1 x2 y2 l.location) (Coord.pt x2 y2)
                (EI_val el.E el.I) (EA_val el.E el.A)).id])]
        warnings := bs.warnings } := by
  unfold processMember
  rw [h1, h2]
  dsimp only
  rw [hl]
  dsimp only
  rw [if_neg hv]

/-! Claim theorems. -/

/-- Claim C10: the stiffness values handed to the solver satisfy, in
exact arithmetic, EI_val = (E * 144) * (I / 12 ^ 4) = E * I / 144 and
EA_val = (E * 144) * (A / 144) = E * A, so the three unit conversions
compose to a coherent kip-foot system. -/
theorem claim_C10_unit_conversions (E I A : ℚ) :
    EI_val E I = E * I / 144 ∧ EA_val E A = E * A := by
  constructor
  · unfold EI_val E_ksf I_ft4; ring
  · unfold EA_val E_ksf A_ft2; ring

/-- Claim C9: a structure with no supports at all fails with
UnderconstrainedError and never returns a result record.  The solve
itself is modelled from the spec (see solveModel); the repository code
contributes that no stage of the build ever adds a support that was not
checked in the support table, and that the try/except around ss.solve
yields no result tables on failure. -/
theorem claim_C9_no_supports_underconstrained (nodes : List NodeRow)
    (members : List MemberInput) (loads : List LoadInput) :
    runAnalysis ⟨nodes, members, [], loads⟩
      = .error AnalysisError.underconstrained := by
  unfold runAnalysis
  have h : (buildSystem ⟨nodes, members, [], loads⟩).ss.supports = [] := by
    unfold buildSystem
    dsimp only
    rw [applyDistributedLoads_supports]
    exact buildMembers_supports _
  unfold solveModel
  rw [h]
  rfl

/-- Claim C7, counterexample: the form accepts a member between the
distinct node ids 1 and 2 even though both carry the coordinates (0,0),
so a zero-length member (squared length 0) is not rejected and one
solver element is still built from it.  The claim that a member whose
endpoint nodes have coincident coordinates is rejected before any
analysis is therefore false. -/
theorem claim_C7_counterexample :
    acceptMember 1 2 = true ∧
    Lsq 0 0 0 0 = 0 ∧
    (buildMembers inpC7).ss.elements.length = 1 := by
  decide

/-- Claim C7 (amended): the Add Member form rejects a member only when
its two endpoint ids coincide, so a member between distinct nodes with
coincident coordinates is accepted with zero length; nevertheless the
division d / L of the split branch is unreachable for such a member,
because the branch runs only when the location guard fails, which
forces 0 < d and d * d < L squared, hence L squared positive. -/
theorem claim_C7_no_div_by_zero :
    (∀ s : Nat, acceptMember s s = false) ∧
    (∀ d L2 : ℚ, ¬ invalidLocation d L2 → 0 < d ∧ 0 < L2) := by
  constructor
  · intro s; simp [acceptMember]
  · intro d L2 h
    unfold invalidLocation at h
    push_neg at h
    exact ⟨h.1, lt_of_le_of_lt (mul_self_nonneg d) h.2⟩

/-- Witness for claim C7: the guard hypotheses are satisfiable, e.g. at
endpoint id 3 and at an interior load 5 ft along a member of squared
length 100. -/
theorem claim_C7_no_div_by_zero_witness :
    acceptMember 3 3 = false ∧ (0 < (5 : ℚ) ∧ 0 < (100 : ℚ)) :=
  ⟨claim_C7_no_div_by_zero.1 3,
   claim_C7_no_div_by_zero.2 5 100 (by norm_num [invalidLocation])⟩

/-- Claim C1, counterexample: the member of inpC1 carries two point
loads, both interior (at 3 ft and 7 ft of a 10 ft member), yet the
build produces 2 solver elements, not the 2 + 1 the claim requires:
the code splits only at the first load and ignores the second. -/
theorem claim_C1_counterexample :
    inpC1.loads.filter (isPointLoadOf 1) =
      [⟨LoadType.point, 1, -1, 3⟩, ⟨LoadType.point, 1, -1, 7⟩] ∧
    ¬ invalidLocation 3 (Lsq 0 0 10 0) ∧
    ¬ invalidLocation 7 (Lsq 0 0 10 0) ∧
    (buildMembers inpC1).ss.elements.length = 2 ∧
    ¬ (buildMembers inpC1).ss.elements.length = 2 + 1 := by
  decide

/-- Claim C1 (amended): the discretizer does not sort a member point
loads nor split at each of them; it examines only the first point load
in session order.  Whenever that first load passes the location check,
the member yields exactly 2 solver elements - regardless of how many
further (interior or not) point loads the member carries - and the
member_map records exactly those two element ids. -/
theorem claim_C1_only_first_load_splits
    (loads : List LoadInput) (rows : List NodeRow) (uid : Nat)
    (el : MemberInput) (bs : BuildState) (x1 y1 x2 y2 : ℚ)
    (l : LoadInput) (rest : List LoadInput)
    (h1 : node_map rows el.start = some (x1, y1))
    (h2 : node_map rows el.end_ = some (x2, y2))
    (hl : loads.filter (isPointLoadOf uid) = l :: rest)
    (hv : ¬ invalidLocation l.location (Lsq x1 y1 x2 y2)) :
    (processMember loads rows uid el bs).ss.elements.length
        = bs.ss.elements.length + 2 ∧
    (processMember loads rows uid el bs).member_map
        = bs.member_map
          ++ [(uid, [bs.ss.elements.length + 1, bs.ss.elements.length + 1 + 1])] := by
  rw [processMember_split bs h1 h2 hl hv]
  constructor
  · simp [point_load_elements, add_element_state_elements]
  · simp [add_element_id, add_element_state_elements]

/-- Witness for claim C1: the member of inpC1 carries the two interior
point loads of inpC1, and processing it from the empty build state
yields two elements with ids 1 and 2. -/
theorem claim_C1_only_first_load_splits_witness :
    (processMember inpC1.loads rows10 1 member12 initialBuild).ss.elements.length
        = initialBuild.ss.elements.length + 2 ∧
    (processMember inpC1.loads rows10 1 member12 initialBuild).member_map
        = initialBuild.member_map
          ++ [(1, [initialBuild.ss.elements.length + 1,
                initialBuild.ss.elements.length + 1 + 1])] :=
  claim_C1_only_first_load_splits inpC1.loads rows10 1 member12 initialBuild
    0 0 10 0 ⟨LoadType.point, 1, -1, 3⟩ [⟨LoadType.point, 1, -1, 7⟩]
    (by decide) (by decide) (by decide) (by decide)

/-- Claim C2, counterexample: the point load of inpC2 sits at
d = 15 ft, outside the 10 ft member.  The claim says the solve fails
with InvalidLoadError; instead the code adds the member unsplit, drops
the load entirely (no point load reaches the solver), shows an error
message, and the analysis still returns a result record. -/
theorem claim_C2_counterexample :
    invalidLocation 15 (Lsq 0 0 10 0) ∧
    (buildSystem inpC2).ss.pointLoads = [] ∧
    (buildSystem inpC2).warnings = [1] ∧
    exceptOk (runAnalysis inpC2) = true := by
  decide

/-- Claim C2 (amended): for a member whose first point load fails the
location check d <= 0 or d >= L (in particular any location outside
[0, L]), no InvalidLoadError is raised and no abort happens: the member
is added unsplit as one element, the point load is applied to no node
at all, an error message naming the member is recorded, and the
pipeline carries on to the solve. -/
theorem claim_C2_out_of_range_fallback
    (loads : List LoadInput) (rows : List NodeRow) (uid : Nat)
    (el : MemberInput) (bs : BuildState) (x1 y1 x2 y2 : ℚ)
    (l : LoadInput) (rest : List LoadInput)
    (h1 : node_map rows el.start = some (x1, y1))
    (h2 : node_map rows el.end_ = some (x2, y2))
    (hl : loads.filter (isPointLoadOf uid) = l :: rest)
    (hv : invalidLocation l.location (Lsq x1 y1 x2 y2)) :
    (processMember loads rows uid el bs).ss.elements.length
        = bs.ss.elements.length + 1 ∧
    (processMember loads rows uid el bs).ss.pointLoads = bs.ss.pointLoads ∧
    (processMember loads rows uid el bs).warnings = bs.warnings ++ [uid] := by
  rw [processMember_invalid bs h1 h2 hl hv]
  refine ⟨?_, ?_, rfl⟩
  · simp [add_element_state_elements]
  · simp [add_element_pointLoads]

/-- Witness for claim C2: processing the member of inpC2, whose point
load sits at 15 ft of a 10 ft member, from the empty build state. -/
theorem claim_C2_out_of_range_fallback_witness :
    (processMember inpC2.loads rows10 1 member12 initialBuild).ss.elements.length
        = initialBuild.ss.elements.length + 1 ∧
    (processMember inpC2.loads rows10 1 member12 initialBuild).ss.pointLoads
        = initialBuild.ss.pointLoads ∧
    (processMember inpC2.loads rows10 1 member12 initialBuild).warnings
        = initialBuild.warnings ++ [1] :=
  claim_C2_out_of_range_fallback inpC2.loads rows10 1 member12 initialBuild
    0 0 10 0 ⟨LoadType.point, 1, -1, 15⟩ []
    (by decide) (by decide) (by decide) (by decide)

/-- Claim C3, counterexample: the point load of inpC3 sits exactly at
d = 0, the start node of the member.  The claim says such a load is
attached directly to the existing end node; instead the code takes the
invalid-location branch: the member stays unsplit, the load is applied
to no node at all, and the error message is shown. -/
theorem claim_C3_counterexample :
    inpC3.loads = [⟨LoadType.point, 1, -1, 0⟩] ∧
    (buildMembers inpC3).ss.elements.length = 1 ∧
    (buildMembers inpC3).ss.pointLoads = [] ∧
    (buildMembers inpC3).warnings = [1] := by
  decide

/-- Claim C3 (amended): for the first point load of a member, an
interior location (the guard d <= 0 or d >= L fails) forces a split
into two elements with one additional applied point load; a boundary or
out-of-range location (the guard holds, which includes d = 0 and d = L)
leaves the member unsplit and does NOT attach the load to the existing
end node: the load is dropped entirely and only the error message is
recorded. -/
theorem claim_C3_boundary_load_dropped
    (loads : List LoadInput) (rows : List NodeRow) (uid : Nat)
    (el : MemberInput) (bs : BuildState) (x1 y1 x2 y2 : ℚ)
    (l : LoadInput) (rest : List LoadInput)
    (h1 : node_map rows el.start = some (x1, y1))
    (h2 : node_map rows el.end_ = some (x2, y2))
    (hl : loads.filter (isPointLoadOf uid) = l :: rest) :
    (¬ invalidLocation l.location (Lsq x1 y1 x2 y2) →
        (processMember loads rows uid el bs).ss.elements.length
            = bs.ss.elements.length + 2 ∧
        (processMember loads rows uid el bs).ss.pointLoads.length
            = bs.ss.pointLoads.length + 1) ∧
    (invalidLocation l.location (Lsq x1 y1 x2 y2) →
        (processMember loads rows uid el bs).ss.elements.length
            = bs.ss.elements.length + 1 ∧
        (processMember loads rows uid el bs).ss.pointLoads = bs.ss.pointLoads ∧
        (processMember loads rows uid el bs).warnings = bs.warnings ++ [uid]) := by
  constructor
  · intro hv
    rw [processMember_split bs h1 h2 hl hv]
    constructor
    · simp [point_load_elements, add_element_state_elements]
    · simp [point_load_pointLoads, add_element_pointLoads]
  · intro hv
    rw [processMember_invalid bs h1 h2 hl hv]
    refine ⟨?_, ?_, rfl⟩
    · simp [add_element_state_elements]
    · simp [add_element_pointLoads]

/-- Witness for claim C3: the member of inpC3 with its load at d = 0. -/
theorem claim_C3_boundary_load_dropped_witness :
    (¬ invalidLocation 0 (Lsq 0 0 10 0) →
        (processMember inpC3.loads rows10 1 member12 initialBuild).ss.elements.length
            = initialBuild.ss.elements.length + 2 ∧
        (processMember inpC3.loads rows10 1 member12 initialBuild).ss.pointLoads.length
            = initialBuild.ss.pointLoads.length + 1) ∧
    (invalidLocation 0 (Lsq 0 0 10 0) →
        (processMember inpC3.loads rows10 1 member12 initialBuild).ss.elements.length
            = initialBuild.ss.elements.length + 1 ∧
        (processMember inpC3.loads rows10 1 member12 initialBuild).ss.pointLoads
            = initialBuild.ss.pointLoads ∧
        (processMember inpC3.loads rows10 1 member12 initialBuild).warnings
            = initialBuild.warnings ++ [1]) :=
  claim_C3_boundary_load_dropped inpC3.loads rows10 1 member12 initialBuild
    0 0 10 0 ⟨LoadType.point, 1, -1, 0⟩ []
    (by decide) (by decide) (by decide)

/-- Claim C4: a member whose point loads reduce to a single interior
load is split into exactly two sub-elements, consecutive in the element
map, and the node shared between them (node_id2 of the first segment,
node_id1 of the second) receives exactly the applied load magnitude. -/
theorem claim_C4_single_interior_split
    (loads : List LoadInput) (rows : List NodeRow) (uid : Nat)
    (el : MemberInput) (bs : BuildState) (x1 y1 x2 y2 : ℚ) (l : LoadInput)
    (h1 : node_map rows el.start = some (x1, y1))
    (h2 : node_map rows el.end_ = some (x2, y2))
    (hl : loads.filter (isPointLoadOf uid) = [l])
    (hv : ¬ invalidLocation l.location (Lsq x1 y1 x2 y2)) :
    ∃ e1 e2 : AnaElement, ∃ n : Nat,
      (processMember loads rows uid el bs).ss.elements
          = bs.ss.elements ++ [e1, e2] ∧
      (processMember loads rows uid el bs).member_map
          = bs.member_map ++ [(uid, [e1.id, e2.id])] ∧
      e1.node_id2 = n ∧
      e2.node_id1 = n ∧
      (processMember loads rows uid el bs).ss.pointLoads
          = bs.ss.pointLoads ++ [(n, l.value)] := by
  rw [processMember_split bs h1 h2 hl hv]
  refine ⟨⟨bs.ss.elements.length + 1,
      (add_element bs.ss (Coord.pt x1 y1) (Coord.split x1 y1 x2 y2 l.location)
        (EI_val el.E el.I) (EA_val el.E el.A)).node1,
      (add_element bs.ss (Coord.pt x1 y1) (Coord.split x1 y1 x2 y2 l.location)
        (EI_val el.E el.I) (EA_val el.E el.A)).node2,
      Coord.pt x1 y1, Coord.split x1 y1 x2 y2 l.location,
      EI_val el.E el.I, EA_val el.E el.A⟩,
    ⟨bs.ss.elements.length + 1 + 1,
      (add_element
        (add_element bs.ss (Coord.pt x1 y1) (Coord.split x1 y1 x2 y2 l.location)
          (EI_val el.E el.I) (EA_val el.E el.A)).state
        (Coord.split x1 y1 x2 y2 l.location) (Coord.pt x2 y2)
        (EI_val el.E el.I) (EA_val el.E el.A)).node1,
      (add_element
        (add_element bs.ss (Coord.pt x1 y1) (Coord.split x1 y1 x2 y2 l.location)
          (EI_val el.E el.I) (EA_val el.E el.A)).state
        (Coord.split x1 y1 x2 y2 l.location) (Coord.pt x2 y2)
        (EI_val el.E el.I) (EA_val el.E el.A)).node2,
      Coord.split x1 y1 x2 y2 l.location, Coord.pt x2 y2,
      EI_val el.E el.I, EA_val el.E el.A⟩,
    (add_element bs.ss (Coord.pt x1 y1) (Coord.split x1 y1 x2 y2 l.location)
      (EI_val el.E el.I) (EA_val el.E el.A)).node2,
    ?_, ?_, rfl, ?_, ?_⟩
  · simp [point_load_elements, add_element_state_elements]
  · simp [add_element_id, add_element_state_elements]
  · exact add_element_chain bs.ss (Coord.pt x1 y1)
      (Coord.split x1 y1 x2 y2 l.location) (Coord.pt x2 y2)
      (EI_val el.E el.I) (EA_val el.E el.A) (EI_val el.E el.I) (EA_val el.E el.A)
  · simp [point_load_pointLoads, add_element_pointLoads]

/-- Witness for claim C4: the member of inpC4 with its single interior
load at 4 ft. -/
theorem claim_C4_single_interior_split_witness :
    ∃ e1 e2 : AnaElement, ∃ n : Nat,
      (processMember inpC4.loads rows10 1 member12 initialBuild).ss.elements
          = initialBuild.ss.elements ++ [e1, e2] ∧
      (processMember inpC4.loads rows10 1 member12 initialBuild).member_map
          = initialBuild.member_map ++ [(1, [e1.id, e2.id])] ∧
      e1.node_id2 = n ∧
      e2.node_id1 = n ∧
      (processMember inpC4.loads rows10 1 member12 initialBuild).ss.pointLoads
          = initialBuild.ss.pointLoads ++ [(n, (-1 : ℚ))] :=
  claim_C4_single_interior_split inpC4.loads rows10 1 member12 initialBuild
    0 0 10 0 ⟨LoadType.point, 1, -1, 4⟩
    (by decide) (by decide) (by decide) (by decide)

/-- Claim C5 (amended): two point loads of the same member at the same
location are not merged by summing: only the first one in session order
is applied, with its own magnitude alone, and the second contributes to
no node load at all. -/
theorem claim_C5_tie_first_only
    (loads : List LoadInput) (rows : List NodeRow) (uid : Nat)
    (el : MemberInput) (bs : BuildState) (x1 y1 x2 y2 : ℚ)
    (l l2 : LoadInput) (rest : List LoadInput)
    (h1 : node_map rows el.start = some (x1, y1))
    (h2 : node_map rows el.end_ = some (x2, y2))
    (hl : loads.filter (isPointLoadOf uid) = l :: l2 :: rest)
    (_htie : l2.location = l.location)
    (hv : ¬ invalidLocation l.location (Lsq x1 y1 x2 y2)) :
    (processMember loads rows uid el bs).ss.pointLoads
        = bs.ss.pointLoads
          ++ [((add_element bs.ss (Coord.pt x1 y1)
                (Coord.split x1 y1 x2 y2 l.location)
                (EI_val el.E el.I) (EA_val el.E el.A)).node2, l.value)] := by
  rw [processMember_split bs h1 h2 hl hv]
  simp [point_load_pointLoads, add_element_pointLoads]

/-- Witness for claim C5: the member of inpC5 with its tie of loads -1
and -2 at 5 ft; the single applied load carries magnitude -1. -/
theorem claim_C5_tie_first_only_witness :
    (processMember inpC5.loads rows10 1 member12 initialBuild).ss.pointLoads
        = initialBuild.ss.pointLoads
          ++ [((add_element initialBuild.ss (Coord.pt 0 0)
                (Coord.split 0 0 10 0 5)
                (EI_val member12.E member12.I)
                (EA_val member12.E member12.A)).node2, (-1 : ℚ))] :=
  claim_C5_tie_first_only inpC5.loads rows10 1 member12 initialBuild
    0 0 10 0 ⟨LoadType.point, 1, -1, 5⟩ ⟨LoadType.point, 1, -2, 5⟩ []
    (by decide) (by decide) (by decide) (by decide) (by decide)

/-- Claim C5, counterexample: the member of inpC5 carries two point
loads at the same location (5 ft), of magnitudes -1 and -2.  The claim
says they are merged by summing to -3 at the shared split node; instead
only the first load is applied (Fy = -1 at node 2) and the second is
ignored entirely. -/
theorem claim_C5_counterexample :
    (buildMembers inpC5).ss.pointLoads = [(2, -1)] ∧
    ¬ (buildMembers inpC5).ss.pointLoads = [(2, -3)] := by
  decide

theorem q_load_qLoads (ss : SystemState) (e : Nat) (v : ℚ) :
    (q_load ss e v).qLoads = ss.qLoads ++ [(e, v)] := rfl

theorem lookup_append_self {mm : List (Nat × List Nat)} {uid : Nat} {ids : List Nat}
    (h : ∀ p ∈ mm, p.1 ≠ uid) :
    List.lookup uid (mm ++ [(uid, ids)]) = some ids := by
  induction mm with
  | nil => simp [List.lookup]
  | cons p t ih =>
      obtain ⟨k, v⟩ := p
      have hk : (uid == k) = false := by
        have hne := h (k, v) (by simp)
        simp only [beq_eq_false_iff_ne]
        exact fun he => hne he.symm
      rw [List.cons_append]
      simp only [List.lookup, hk]
      exact ih (fun q hq => h q (by simp [hq]))

theorem foldl_q_load_mem_mono {v : ℚ} {segs : List Nat} {ss : SystemState}
    {x : Nat × ℚ} (h : x ∈ ss.qLoads) :
    x ∈ (segs.foldl (fun ss seg => q_load ss seg v) ss).qLoads := by
  induction segs generalizing ss with
  | nil => exact h
  | cons s t ih =>
      rw [List.foldl_cons]
      exact ih (List.mem_append_left _ h)

theorem foldl_q_load_mem {v : ℚ} {segs : List Nat} {s : Nat} (ss : SystemState)
    (h : s ∈ segs) :
    (s, v) ∈ (segs.foldl (fun ss seg => q_load ss seg v) ss).qLoads := by
  induction segs generalizing ss with
  | nil => cases h
  | cons a t ih =>
      rw [List.foldl_cons]
      rcases List.mem_cons.mp h with rfl | h2
      · exact foldl_q_load_mem_mono (List.mem_append_right _ (by simp))
      · exact ih _ h2

theorem applyDistributedLoads_cons (a : LoadInput) (t : List LoadInput)
    (mmap : List (Nat × List Nat)) (ss : SystemState) :
    applyDistributedLoads (a :: t) mmap ss
      = applyDistributedLoads t mmap
          (if a.type = LoadType.distributed then
            ((List.lookup a.element_id mmap).getD []).foldl
              (fun ss seg => q_load ss seg a.value) ss
          else ss) := rfl

theorem applyDistributedLoads_mono {loads : List LoadInput}
    {mmap : List (Nat × List Nat)} {ss : SystemState} {x : Nat × ℚ}
    (h : x ∈ ss.qLoads) :
    x ∈ (applyDistributedLoads loads mmap ss).qLoads := by
  induction loads generalizing ss with
  | nil => exact h
  | cons a t ih =>
      rw [applyDistributedLoads_cons]
      apply ih
      split
      · exact foldl_q_load_mem_mono h
      · exact h

/-- Every distributed load of the session is applied, via member_map,
to each solver element recorded for its member (source lines 237-242). -/
theorem applyDistributedLoads_mem {loads : List LoadInput}
    {mmap : List (Nat × List Nat)} {l : LoadInput} {segs : List Nat} {s : Nat}
    (ss : SystemState)
    (hmem : l ∈ loads) (hd : l.type = LoadType.distributed)
    (hlk : List.lookup l.element_id mmap = some segs) (hs : s ∈ segs) :
    (s, l.value) ∈ (applyDistributedLoads loads mmap ss).qLoads := by
  induction loads generalizing ss with
  | nil => cases hmem
  | cons a t ih =>
      rw [applyDistributedLoads_cons]
      rcases List.mem_cons.mp hmem with rfl | h2
      · apply applyDistributedLoads_mono
        rw [if_pos hd, hlk]
        exact foldl_q_load_mem ss hs
      · exact ih _ h2

/-- Claim C6: for every member (whose endpoints resolve and whose user
id is fresh in member_map), the member_map entry lists exactly the
solver elements generated for it, in geometric order: the first element
starts at the member start coordinate, the last one ends at the member
end coordinate, and consecutive elements share their connecting node.
Moreover any distributed load of that member is applied, through that
entry, to every one of those sub-elements. -/
theorem claim_C6_member_map_geometric_order
    (loads : List LoadInput) (rows : List NodeRow) (uid : Nat)
    (el : MemberInput) (bs : BuildState) (x1 y1 x2 y2 : ℚ)
    (h1 : node_map rows el.start = some (x1, y1))
    (h2 : node_map rows el.end_ = some (x2, y2))
    (hkey : ∀ p ∈ bs.member_map, p.1 ≠ uid) :
    ∃ new : List AnaElement,
      new ≠ [] ∧
      (processMember loads rows uid el bs).ss.elements = bs.ss.elements ++ new ∧
      (processMember loads rows uid el bs).member_map
          = bs.member_map ++ [(uid, new.map AnaElement.id)] ∧
      new.head?.map AnaElement.vertex1 = some (Coord.pt x1 y1) ∧
      new.getLast?.map AnaElement.vertex2 = some (Coord.pt x2 y2) ∧
      List.Chain' (fun e e2 => e.node_id2 = e2.node_id1) new ∧
      ∀ (lds : List LoadInput) (dl : LoadInput) (ss0 : SystemState),
        dl ∈ lds → dl.type = LoadType.distributed → dl.element_id = uid →
        ∀ e ∈ new, (e.id, dl.value)
          ∈ (applyDistributedLoads lds
              (processMember loads rows uid el bs).member_map ss0).qLoads := by
  rcases hf : loads.filter (isPointLoadOf uid) with _ | ⟨l, rest⟩
  · rw [processMember_no_loads bs h1 h2 hf]
    refine ⟨[⟨bs.ss.elements.length + 1,
        (add_element bs.ss (Coord.pt x1 y1) (Coord.pt x2 y2)
          (EI_val el.E el.I) (EA_val el.E el.A)).node1,
        (add_element bs.ss (Coord.pt x1 y1) (Coord.pt x2 y2)
          (EI_val el.E el.I) (EA_val el.E el.A)).node2,
        Coord.pt x1 y1, Coord.pt x2 y2, EI_val el.E el.I, EA_val el.E el.A⟩],
      by simp, ?_, ?_, by simp, by simp, List.chain'_singleton _, ?_⟩
    · simp [add_element_state_elements]
    · simp [add_element_id]
    · intro lds dl ss0 hmem hd hid e he
      have hmm2 : (({ bs with
          ss := (add_element bs.ss (Coord.pt x1 y1) (Coord.pt x2 y2)
                  (EI_val el.E el.I) (EA_val el.E el.A)).state
          member_map := bs.member_map
            ++ [(uid, [(add_element bs.ss (Coord.pt x1 y1) (Coord.pt x2 y2)
                  (EI_val el.E el.I) (EA_val el.E el.A)).id])] } : BuildState)).member_map
          = bs.member_map ++ [(uid, [bs.ss.elements.length + 1])] := by
        simp [add_element_id]
      rw [hmm2]
      rcases List.mem_singleton.mp he with rfl
      exact applyDistributedLoads_mem ss0 hmem hd
        (by rw [hid]; exact lookup_append_self hkey) (by simp)
  · by_cases hv : invalidLocation l.location (Lsq x1 y1 x2 y2)
    · rw [processMember_invalid bs h1 h2 hf hv]
      refine ⟨[⟨bs.ss.elements.length + 1,
          (add_element bs.ss (Coord.pt x1 y1) (Coord.pt x2 y2)
            (EI_val el.E el.I) (EA_val el.E el.A)).node1,
          (add_element bs.ss (Coord.pt x1 y1) (Coord.pt x2 y2)
            (EI_val el.E el.I) (EA_val el.E el.A)).node2,
          Coord.pt x1 y1, Coord.pt x2 y2, EI_val el.E el.I, EA_val el.E el.A⟩],
        by simp, ?_, ?_, by simp, by simp, List.chain'_singleton _, ?_⟩
      · simp [add_element_state_elements]
      · simp [add_element_id]
      · intro lds dl ss0 hmem hd hid e he
        have hmm2 : (({
            ss := (add_element bs.ss (Coord.pt x1 y1) (Coord.pt x2 y2)
                    (EI_val el.E el.I) (EA_val el.E el.A)).state
            member_map := bs.member_map
              ++ [(uid, [(add_element bs.ss (Coord.pt x1 y1) (Coord.pt x2 y2)
                    (EI_val el.E el.I) (EA_val el.E el.A)).id])]
            warnings := bs.warnings ++ [uid] } : BuildState)).member_map
            = bs.member_map ++ [(uid, [bs.ss.elements.length + 1])] := by
          simp [add_element_id]
        rw [hmm2]
        rcases List.mem_singleton.mp he with rfl
        exact applyDistributedLoads_mem ss0 hmem hd
          (by rw [hid]; exact lookup_append_self hkey) (by simp)
    · rw [processMember_split bs h1 h2 hf hv]
      refine ⟨[⟨bs.ss.elements.length + 1,
          (add_element bs.ss (Coord.pt x1 y1) (Coord.split x1 y1 x2 y2 l.location)
            (EI_val el.E el.I) (EA_val el.E el.A)).node1,
          (add_element bs.ss (Coord.pt x1 y1) (Coord.split x1 y1 x2 y2 l.location)
            (EI_val el.E el.I) (EA_val el.E el.A)).node2,
          Coord.pt x1 y1, Coord.split x1 y1 x2 y2 l.location,
          EI_val el.E el.I, EA_val el.E el.A⟩,
        ⟨bs.ss.elements.length + 1 + 1,
          (add_element
            (add_element bs.ss (Coord.pt x1 y1) (Coord.split x1 y1 x2 y2 l.location)
              (EI_val el.E el.I) (EA_val el.E el.A)).state
            (Coord.split x1 y1 x2 y2 l.location) (Coord.pt x2 y2)
            (EI_val el.E el.I) (EA_val el.E el.A)).node1,
          (add_element
            (add_element bs.ss (Coord.pt x1 y1) (Coord.split x1 y1 x2 y2 l.location)
              (EI_val el.E el.I) (EA_val el.E el.A)).state
            (Coord.split x1 y1 x2 y2 l.location) (Coord.pt x2 y2)
            (EI_val el.E el.I) (EA_val el.E el.A)).node2,
          Coord.split x1 y1 x2 y2 l.location, Coord.pt x2 y2,
          EI_val el.E el.I, EA_val el.E el.A⟩],
        by simp, ?_, ?_, by simp, by simp, ?_, ?_⟩
      · simp [point_load_elements, add_element_state_elements]
      · simp [add_element_id, add_element_state_elements]
      · exact List.chain'_cons.mpr
          ⟨(add_element_chain bs.ss (Coord.pt x1 y1)
              (Coord.split x1 y1 x2 y2 l.location) (Coord.pt x2 y2)
              (EI_val el.E el.I) (EA_val el.E el.A)
              (EI_val el.E el.I) (EA_val el.E el.A)).symm,
            List.chain'_singleton _⟩
      · intro lds dl ss0 hmem hd hid e he
        have hmm2 : (({
            ss := point_load
              (add_element
                (add_element bs.ss (Coord.pt x1 y1)
                  (Coord.split x1 y1 x2 y2 l.location)
                  (EI_val el.E el.I) (EA_val el.E el.A)).state
                (Coord.split x1 y1 x2 y2 l.location) (Coord.pt x2 y2)
                (EI_val el.E el.I) (EA_val el.E el.A)).state
              (add_element bs.ss (Coord.pt x1 y1)
                (Coord.split x1 y1 x2 y2 l.location)
                (EI_val el.E el.I) (EA_val el.E el.A)).node2
              l.value
            member_map := bs.member_map
              ++ [(uid,
                [(add_element bs.ss (Coord.pt x1 y1)
                    (Coord.split x1 y1 x2 y2 l.location)
                    (EI_val el.E el.I) (EA_val el.E el.A)).id,
                 (add_element
                    (add_element bs.ss (Coord.pt x1 y1)
                      (Coord.split x1 y1 x2 y2 l.location)
                      (EI_val el.E el.I) (EA_val el.E el.A)).state
                    (Coord.split x1 y1 x2 y2 l.location) (Coord.pt x2 y2)
                    (EI_val el.E el.I) (EA_val el.E el.A)).id])]
            warnings := bs.warnings } : BuildState)).member_map
            = bs.member_map
              ++ [(uid, [bs.ss.elements.length + 1, bs.ss.elements.length + 1 + 1])] := by
          simp [add_element_id, add_element_state_elements]
        rw [hmm2]
        rcases List.mem_cons.mp he with rfl | he2
        · exact applyDistributedLoads_mem ss0 hmem hd
            (by rw [hid]; exact lookup_append_self hkey) (by simp)
        · rcases List.mem_singleton.mp he2 with rfl
          exact applyDistributedLoads_mem ss0 hmem hd
            (by rw [hid]; exact lookup_append_self hkey) (by simp)

/-- Witness for claim C6: the member of inpC6 (one interior point load
and one distributed load) processed from the empty build state. -/
theorem claim_C6_member_map_geometric_order_witness :
    ∃ new : List AnaElement,
      new ≠ [] ∧
      (processMember inpC6.loads rows10 1 member12 initialBuild).ss.elements
          = initialBuild.ss.elements ++ new ∧
      (processMember inpC6.loads rows10 1 member12 initialBuild).member_map
          = initialBuild.member_map ++ [(1, new.map AnaElement.id)] ∧
      new.head?.map AnaElement.vertex1 = some (Coord.pt 0 0) ∧
      new.getLast?.map AnaElement.vertex2 = some (Coord.pt 10 0) ∧
      List.Chain' (fun e e2 => e.node_id2 = e2.node_id1) new ∧
      ∀ (lds : List LoadInput) (dl : LoadInput) (ss0 : SystemState),
        dl ∈ lds → dl.type = LoadType.distributed → dl.element_id = 1 →
        ∀ e ∈ new, (e.id, dl.value)
          ∈ (applyDistributedLoads lds
              (processMember inpC6.loads rows10 1 member12 initialBuild).member_map
              ss0).qLoads :=
  claim_C6_member_map_geometric_order inpC6.loads rows10 1 member12 initialBuild
    0 0 10 0 (by decide) (by decide) (by decide)

/-- Claim C8, counterexample: inpC8 contains a member whose far end is
the non-existent node 99, a support on node 3 touched by no member, and
a distributed load on the non-existent member 5.  The claim says the
solve fails with InvalidGeometryError identifying the offender; instead
all three are silently skipped (one element, two supports, no
distributed load reaches the solver) and a result is still returned. -/
theorem claim_C8_counterexample :
    (buildSystem inpC8).ss.elements.length = 1 ∧
    (buildSystem inpC8).ss.supports =
      [(1, SupportKind.pinned), (2, SupportKind.roller)] ∧
    (buildSystem inpC8).ss.qLoads = [] ∧
    exceptOk (runAnalysis inpC8) = true := by
  decide

/-- Claim C8 (amended): dangling references are skipped silently
rather than rejected with InvalidGeometryError: a member referencing a
missing node id is not meshed at all (the build state is unchanged), a
support whose node coordinate matches no solver node is ignored, and a
distributed load on an unknown member id is applied to no element. -/
theorem claim_C8_dangling_refs_skipped :
    (∀ (loads : List LoadInput) (rows : List NodeRow) (uid : Nat)
        (el : MemberInput) (bs : BuildState),
        (node_map rows el.start = none ∨ node_map rows el.end_ = none) →
        processMember loads rows uid el bs = bs) ∧
    (∀ (rows : List NodeRow) (nid : Nat) (k : SupportKind) (ss : SystemState)
        (tx ty : ℚ),
        node_map rows nid = some (tx, ty) →
        find_node_id ss (Coord.pt tx ty) = none →
        addSupports rows [(nid, k)] ss = ss) ∧
    (∀ (l : LoadInput) (mmap : List (Nat × List Nat)) (ss : SystemState),
        List.lookup l.element_id mmap = none →
        applyDistributedLoads [l] mmap ss = ss) := by
  refine ⟨?_, ?_, ?_⟩
  · intro loads rows uid el bs h
    unfold processMember
    rcases h with h | h
    · rw [h]
    · cases hs : node_map rows el.start with
      | none => rw [h]
      | some p =>
          obtain ⟨x, y⟩ := p
          rw [h]
  · intro rows nid k ss tx ty hn hf
    unfold addSupports
    rw [List.foldl_cons, List.foldl_nil]
    dsimp only
    rw [hn]
    dsimp only
    rw [hf]
  · intro l mmap ss h
    unfold applyDistributedLoads
    rw [List.foldl_cons, List.foldl_nil]
    split
    · rw [h]
      rfl
    · rfl

/-- Witness for claim C8: a member referencing node 1 in an empty node
table is skipped, a support on node 1 of rows10 finds no solver node in
the empty system and is skipped, and a distributed load on member 5
with an empty member_map is applied to nothing. -/
theorem claim_C8_dangling_refs_skipped_witness :
    processMember [] [] 1 member12 initialBuild = initialBuild ∧
    addSupports rows10 [(1, SupportKind.pinned)] emptySystem = emptySystem ∧
    applyDistributedLoads [⟨LoadType.distributed, 5, -1, 0⟩] [] emptySystem
      = emptySystem :=
  ⟨claim_C8_dangling_refs_skipped.1 [] [] 1 member12 initialBuild
      (Or.inl (by decide)),
   claim_C8_dangling_refs_skipped.2.1 rows10 1 SupportKind.pinned emptySystem
      0 0 (by decide) (by decide),
   claim_C8_dangling_refs_skipped.2.2 ⟨LoadType.distributed, 5, -1, 0⟩ []
      emptySystem (by decide)⟩

end StructureApp
